import Mathlib

/-!
Shallow embedding of `pkg/snowflake/grant.go`: builders that locate a
grantable object, and executables that render GRANT / REVOKE / SHOW SQL
statements for a (object, grantee) pair.  Go strings become `String`,
`fmt.Sprintf` templates become explicit concatenations, and
`strings.Join` is modelled by `stringsJoin` below.
-/

namespace Snowflake

/-- The Go type `grantType` is a string type; each constant is the SQL
keyword for an object kind. -/
abbrev GrantTypeT := String

def accountType : GrantTypeT := "ACCOUNT"

def resourceMonitorType : GrantTypeT := "RESOURCE MONITOR"

def integrationType : GrantTypeT := "INTEGRATION"

def databaseType : GrantTypeT := "DATABASE"

def schemaType : GrantTypeT := "SCHEMA"

def stageType : GrantTypeT := "STAGE"

def viewType : GrantTypeT := "VIEW"

def materializedViewType : GrantTypeT := "MATERIALIZED VIEW"

def tableType : GrantTypeT := "TABLE"

def warehouseType : GrantTypeT := "WAREHOUSE"

def externalTableType : GrantTypeT := "EXTERNAL TABLE"

def fileFormatType : GrantTypeT := "FILE FORMAT"

def functionType : GrantTypeT := "FUNCTION"

def procedureType : GrantTypeT := "PROCEDURE"

def sequenceType : GrantTypeT := "SEQUENCE"

def streamType : GrantTypeT := "STREAM"

/-- The Go type `granteeType`: the SQL keyword for a grantee kind. -/
abbrev GranteeTypeT := String

def roleType : GranteeTypeT := "ROLE"

def shareType : GranteeTypeT := "SHARE"

def userType : GranteeTypeT := "USER"

/-- `strings.Join(elems, sep)` from the Go standard library: concatenates
the elements, placing `sep` between consecutive elements. -/
def stringsJoin : List String → String → String
  | [], _ => ""
  | [x], _ => x
  | x :: y :: xs, sep => x ++ sep ++ stringsJoin (y :: xs) sep

/-- Go struct `CurrentGrantBuilder`. -/
structure CurrentGrantBuilder where
  name : String
  qualifiedName : String
  grantType : GrantTypeT

/-- `CurrentGrantBuilder.Name`. -/
def CurrentGrantBuilder.Name (gb : CurrentGrantBuilder) : String :=
  gb.name

/-- `CurrentGrantBuilder.GrantType`. -/
def CurrentGrantBuilder.GrantType (gb : CurrentGrantBuilder) : String :=
  gb.grantType

/-- `CurrentGrantBuilder.Show`: `fmt.Sprintf("SHOW GRANTS ON %v %v", gb.grantType, gb.qualifiedName)`. -/
def CurrentGrantBuilder.Show (gb : CurrentGrantBuilder) : String :=
  "SHOW GRANTS ON " ++ gb.grantType ++ " " ++ gb.qualifiedName

/-- Go struct `CurrentMaterializedViewGrantBuilder`. -/
structure CurrentMaterializedViewGrantBuilder where
  name : String
  qualifiedName : String
  grantType : GrantTypeT

/-- `CurrentMaterializedViewGrantBuilder.Name`. -/
def CurrentMaterializedViewGrantBuilder.Name
    (gb : CurrentMaterializedViewGrantBuilder) : String :=
  gb.name

/-- `CurrentMaterializedViewGrantBuilder.GrantType`. -/
def CurrentMaterializedViewGrantBuilder.GrantType
    (gb : CurrentMaterializedViewGrantBuilder) : String :=
  gb.grantType

/-- `CurrentMaterializedViewGrantBuilder.Show`. -/
def CurrentMaterializedViewGrantBuilder.Show
    (gb : CurrentMaterializedViewGrantBuilder) : String :=
  "SHOW GRANTS ON " ++ gb.grantType ++ " " ++ gb.qualifiedName

/-- Go struct `CurrentGrantExecutable`. -/
structure CurrentGrantExecutable where
  grantName : String
  grantType : GrantTypeT
  granteeName : String
  granteeType : GranteeTypeT

/-- `CurrentMaterializedViewGrantBuilder.Role`: the executable records
`viewType`, not the builder's own grant type. -/
def CurrentMaterializedViewGrantBuilder.Role
    (gb : CurrentMaterializedViewGrantBuilder) (n : String) :
    CurrentGrantExecutable :=
  { grantName := gb.qualifiedName
    grantType := viewType
    granteeName := n
    granteeType := roleType }

/-- `CurrentMaterializedViewGrantBuilder.Share`: the executable records
`viewType`, not the builder's own grant type. -/
def CurrentMaterializedViewGrantBuilder.Share
    (gb : CurrentMaterializedViewGrantBuilder) (n : String) :
    CurrentGrantExecutable :=
  { grantName := gb.qualifiedName
    grantType := viewType
    granteeName := n
    granteeType := shareType }

/-- `CurrentGrantBuilder.Role`. -/
def CurrentGrantBuilder.Role (gb : CurrentGrantBuilder) (n : String) :
    CurrentGrantExecutable :=
  { grantName := gb.qualifiedName
    grantType := gb.grantType
    granteeName := n
    granteeType := roleType }

/-- `CurrentGrantBuilder.Share`. -/
def CurrentGrantBuilder.Share (gb : CurrentGrantBuilder) (n : String) :
    CurrentGrantExecutable :=
  { grantName := gb.qualifiedName
    grantType := gb.grantType
    granteeName := n
    granteeType := shareType }

/-- `AccountGrant`: only the grant type is set; `name` and
`qualifiedName` stay at Go's zero value, the empty string. -/
def AccountGrant : CurrentGrantBuilder :=
  { name := ""
    qualifiedName := ""
    grantType := accountType }

/-- `DatabaseGrant`. -/
def DatabaseGrant (name : String) : CurrentGrantBuilder :=
  { name := name
    qualifiedName := "\"" ++ name ++ "\""
    grantType := databaseType }

/-- `SchemaGrant`. -/
def SchemaGrant (db schema : String) : CurrentGrantBuilder :=
  { name := schema
    qualifiedName := "\"" ++ db ++ "\".\"" ++ schema ++ "\""
    grantType := schemaType }

/-- `StageGrant`. -/
def StageGrant (db schema stage : String) : CurrentGrantBuilder :=
  { name := stage
    qualifiedName := "\"" ++ db ++ "\".\"" ++ schema ++ "\".\"" ++ stage ++ "\""
    grantType := stageType }

/-- `ViewGrant`. -/
def ViewGrant (db schema view : String) : CurrentGrantBuilder :=
  { name := view
    qualifiedName := "\"" ++ db ++ "\".\"" ++ schema ++ "\".\"" ++ view ++ "\""
    grantType := viewType }

/-- `MaterializedViewGrant`: the only constructor returning the
materialized-view builder type. -/
def MaterializedViewGrant (db schema view : String) :
    CurrentMaterializedViewGrantBuilder :=
  { name := view
    qualifiedName := "\"" ++ db ++ "\".\"" ++ schema ++ "\".\"" ++ view ++ "\""
    grantType := materializedViewType }

/-- `TableGrant`. -/
def TableGrant (db schema table : String) : CurrentGrantBuilder :=
  { name := table
    qualifiedName := "\"" ++ db ++ "\".\"" ++ schema ++ "\".\"" ++ table ++ "\""
    grantType := tableType }

/-- `ResourceMonitorGrant`. -/
def ResourceMonitorGrant (w : String) : CurrentGrantBuilder :=
  { name := w
    qualifiedName := "\"" ++ w ++ "\""
    grantType := resourceMonitorType }

/-- `IntegrationGrant`. -/
def IntegrationGrant (w : String) : CurrentGrantBuilder :=
  { name := w
    qualifiedName := "\"" ++ w ++ "\""
    grantType := integrationType }

/-- `WarehouseGrant`. -/
def WarehouseGrant (w : String) : CurrentGrantBuilder :=
  { name := w
    qualifiedName := "\"" ++ w ++ "\""
    grantType := warehouseType }

/-- `ExternalTableGrant`. -/
def ExternalTableGrant (db schema externalTable : String) : CurrentGrantBuilder :=
  { name := externalTable
    qualifiedName := "\"" ++ db ++ "\".\"" ++ schema ++ "\".\"" ++ externalTable ++ "\""
    grantType := externalTableType }

/-- `FileFormatGrant`. -/
def FileFormatGrant (db schema fileFormat : String) : CurrentGrantBuilder :=
  { name := fileFormat
    qualifiedName := "\"" ++ db ++ "\".\"" ++ schema ++ "\".\"" ++ fileFormat ++ "\""
    grantType := fileFormatType }

/-- `FunctionGrant`: qualified name carries the verbatim argument-type
signature, joined by `", "`. -/
def FunctionGrant (db schema function : String) (argumentTypes : List String) :
    CurrentGrantBuilder :=
  { name := function
    qualifiedName := "\"" ++ db ++ "\".\"" ++ schema ++ "\".\"" ++ function
      ++ "\"(" ++ stringsJoin argumentTypes ", " ++ ")"
    grantType := functionType }

/-- `ProcedureGrant`. -/
def ProcedureGrant (db schema procedure : String) (argumentTypes : List String) :
    CurrentGrantBuilder :=
  { name := procedure
    qualifiedName := "\"" ++ db ++ "\".\"" ++ schema ++ "\".\"" ++ procedure
      ++ "\"(" ++ stringsJoin argumentTypes ", " ++ ")"
    grantType := procedureType }

/-- `SequenceGrant`. -/
def SequenceGrant (db schema sequence : String) : CurrentGrantBuilder :=
  { name := sequence
    qualifiedName := "\"" ++ db ++ "\".\"" ++ schema ++ "\".\"" ++ sequence ++ "\""
    grantType := sequenceType }

/-- `StreamGrant`. -/
def StreamGrant (db schema stream : String) : CurrentGrantBuilder :=
  { name := stream
    qualifiedName := "\"" ++ db ++ "\".\"" ++ schema ++ "\".\"" ++ stream ++ "\""
    grantType := streamType }

/-- `CurrentGrantExecutable.Grant`: selects one of three Sprintf
templates on the privilege and the grant-option flag, then substitutes
the five fields. -/
def CurrentGrantExecutable.Grant (ge : CurrentGrantExecutable)
    (p : String) (w : Bool) : String :=
  let base := "GRANT " ++ p ++ " ON " ++ ge.grantType ++ " " ++ ge.grantName
    ++ " TO " ++ ge.granteeType ++ " \"" ++ ge.granteeName ++ "\""
  if p = "OWNERSHIP" then base ++ " COPY CURRENT GRANTS"
  else if w then base ++ " WITH GRANT OPTION"
  else base

/-- `CurrentGrantExecutable.Revoke`. -/
def CurrentGrantExecutable.Revoke (ge : CurrentGrantExecutable)
    (p : String) : String :=
  "REVOKE " ++ p ++ " ON " ++ ge.grantType ++ " " ++ ge.grantName
    ++ " FROM " ++ ge.granteeType ++ " \"" ++ ge.granteeName ++ "\""

/-- `CurrentGrantExecutable.Show`. -/
def CurrentGrantExecutable.Show (ge : CurrentGrantExecutable) : String :=
  "SHOW GRANTS OF " ++ ge.granteeType ++ " \"" ++ ge.granteeName ++ "\""

/-- Substring containment on strings, via infix of the character lists. -/
def strContains (s pat : String) : Prop :=
  pat.data <:+: s.data

instance (s pat : String) : Decidable (strContains s pat) :=
  inferInstanceAs (Decidable (pat.data <:+: s.data))

end Snowflake

namespace Snowflake

/-- C1 counterexample: `AccountGrant().Show()` is not the exact string
`SHOW GRANTS ON ACCOUNT`; the two-placeholder template keeps the space
between the kind keyword and the (empty) qualified name. -/
theorem accountGrant_show_not_exact :
    AccountGrant.Show ≠ "SHOW GRANTS ON ACCOUNT" := by decide

/-- C1 (amended): `AccountGrant().Show()` returns exactly
`SHOW GRANTS ON ACCOUNT ` — the statement with one trailing space left
by the empty qualified name. -/
theorem accountGrant_show_trailing_space :
    AccountGrant.Show = "SHOW GRANTS ON ACCOUNT " := by rfl

/-- C2 counterexample: with a database name that itself contains
`MATERIALIZED VIEW`, the Grant statement rendered through
`Role` does contain the substring `MATERIALIZED VIEW`, so the
universally quantified non-containment in the claim fails. -/
theorem matView_keyword_asymmetry_cex :
    strContains
      (((MaterializedViewGrant "MATERIALIZED VIEW" "S" "V").Role "R").Grant "SELECT" false)
      "MATERIALIZED VIEW" := by decide

/-- C2 (amended): for every materialized-view builder, `Show()` contains
(and renders with) the keyword `MATERIALIZED VIEW`, while the
executables produced by `Role`/`Share` record the object-kind keyword
`VIEW`, so Grant and Revoke render `ON VIEW <qualifiedName>`; at the
witness instance (plain names) the Grant output contains `VIEW` but not
`MATERIALIZED VIEW`. -/
theorem matView_keyword_asymmetry (db s v x p : String) :
    strContains ((MaterializedViewGrant db s v).Show) "MATERIALIZED VIEW"
    ∧ (MaterializedViewGrant db s v).Show
        = "SHOW GRANTS ON MATERIALIZED VIEW \"" ++ db ++ "\".\"" ++ s ++ "\".\""
          ++ v ++ "\""
    ∧ ((MaterializedViewGrant db s v).Role x).grantType = viewType
    ∧ ((MaterializedViewGrant db s v).Share x).grantType = viewType
    ∧ ((MaterializedViewGrant db s v).Role x).Grant "SELECT" false
        = "GRANT SELECT ON VIEW \"" ++ db ++ "\".\"" ++ s ++ "\".\"" ++ v
          ++ "\" TO ROLE \"" ++ x ++ "\""
    ∧ ((MaterializedViewGrant db s v).Share x).Revoke p
        = "REVOKE " ++ p ++ " ON VIEW \"" ++ db ++ "\".\"" ++ s ++ "\".\"" ++ v
          ++ "\" FROM SHARE \"" ++ x ++ "\""
    ∧ ¬ strContains
        (((MaterializedViewGrant "DB" "S" "V").Role "R").Grant "SELECT" false)
        "MATERIALIZED VIEW"
    ∧ strContains
        (((MaterializedViewGrant "DB" "S" "V").Role "R").Grant "SELECT" false)
        "VIEW" := by
  refine ⟨?_, ?_, rfl, rfl, ?_, ?_, by decide, by decide⟩
  · refine ⟨"SHOW GRANTS ON ".data,
      (" " ++ (MaterializedViewGrant db s v).qualifiedName).data, ?_⟩
    simp [CurrentMaterializedViewGrantBuilder.Show, MaterializedViewGrant,
      materializedViewType, String.data_append, List.append_assoc]
  · apply String.ext
    simp [CurrentMaterializedViewGrantBuilder.Show, MaterializedViewGrant,
      materializedViewType, String.data_append, List.append_assoc]
  · apply String.ext
    simp [CurrentGrantExecutable.Grant, CurrentMaterializedViewGrantBuilder.Role,
      MaterializedViewGrant, viewType, roleType, String.data_append, List.append_assoc]
  · apply String.ext
    simp [CurrentGrantExecutable.Revoke, CurrentMaterializedViewGrantBuilder.Share,
      MaterializedViewGrant, viewType, shareType, String.data_append, List.append_assoc]

/-- C3: when the privilege is exactly `OWNERSHIP`, Grant renders the
`COPY CURRENT GRANTS` template and the grant-option flag is ignored, so
both flag values render identically; the schema example matches. -/
theorem grant_ownership_copy_current_grants
    (ge : CurrentGrantExecutable) (w : Bool) :
    ge.Grant "OWNERSHIP" w
      = "GRANT OWNERSHIP ON " ++ ge.grantType ++ " " ++ ge.grantName
        ++ " TO " ++ ge.granteeType ++ " \"" ++ ge.granteeName
        ++ "\" COPY CURRENT GRANTS"
    ∧ ge.Grant "OWNERSHIP" true = ge.Grant "OWNERSHIP" false
    ∧ ((SchemaGrant "DB" "SCH").Role "ADMIN").Grant "OWNERSHIP" false
      = "GRANT OWNERSHIP ON SCHEMA \"DB\".\"SCH\" TO ROLE \"ADMIN\" COPY CURRENT GRANTS" := by
  refine ⟨?_, ?_, by decide⟩
  · apply String.ext
    simp [CurrentGrantExecutable.Grant, String.data_append, List.append_assoc]
  · simp [CurrentGrantExecutable.Grant]

/-- C4: for a privilege other than `OWNERSHIP`, Grant with the option
flag set appends exactly ` WITH GRANT OPTION` to the flagless
rendering, the flagless rendering is the bare template, and (witnessed
at `SELECT` on a concrete executable) the flagless output does not
contain `WITH GRANT OPTION`. -/
theorem grant_with_grant_option_suffix
    (ge : CurrentGrantExecutable) (p : String) (h : p ≠ "OWNERSHIP") :
    ge.Grant p true = ge.Grant p false ++ " WITH GRANT OPTION"
    ∧ ge.Grant p true
      = "GRANT " ++ p ++ " ON " ++ ge.grantType ++ " " ++ ge.grantName
        ++ " TO " ++ ge.granteeType ++ " \"" ++ ge.granteeName
        ++ "\" WITH GRANT OPTION"
    ∧ ge.Grant p false
      = "GRANT " ++ p ++ " ON " ++ ge.grantType ++ " " ++ ge.grantName
        ++ " TO " ++ ge.granteeType ++ " \"" ++ ge.granteeName ++ "\""
    ∧ ¬ strContains
        (((TableGrant "DB" "SCH" "T").Role "ANALYST").Grant "SELECT" false)
        "WITH GRANT OPTION" := by
  refine ⟨?_, ?_, ?_, by decide⟩
  · simp [CurrentGrantExecutable.Grant, h]
  · apply String.ext
    simp [CurrentGrantExecutable.Grant, h, String.data_append, List.append_assoc]
  · simp [CurrentGrantExecutable.Grant, h]

/-- C4 witness: the hypothesis holds at `SELECT`, and the theorem gives
the suffix equation at a concrete executable. -/
theorem grant_with_grant_option_suffix_witness :
    ("SELECT" : String) ≠ "OWNERSHIP"
    ∧ ((TableGrant "DB" "SCH" "T").Role "ANALYST").Grant "SELECT" true
      = ((TableGrant "DB" "SCH" "T").Role "ANALYST").Grant "SELECT" false
        ++ " WITH GRANT OPTION" :=
  ⟨by decide,
    (grant_with_grant_option_suffix ((TableGrant "DB" "SCH" "T").Role "ANALYST")
      "SELECT" (by decide)).1⟩

/-- C5: Revoke always renders the one unconditional template from the
executable's fields and the privilege alone; concrete instances show no
`COPY CURRENT GRANTS` or `WITH GRANT OPTION` clause appears. -/
theorem revoke_unconditional (ge : CurrentGrantExecutable) (p : String) :
    ge.Revoke p
      = "REVOKE " ++ p ++ " ON " ++ ge.grantType ++ " " ++ ge.grantName
        ++ " FROM " ++ ge.granteeType ++ " \"" ++ ge.granteeName ++ "\""
    ∧ ¬ strContains (((SchemaGrant "DB" "SCH").Role "ADMIN").Revoke "OWNERSHIP")
        "COPY CURRENT GRANTS"
    ∧ ¬ strContains (((SchemaGrant "DB" "SCH").Role "ADMIN").Revoke "SELECT")
        "WITH GRANT OPTION"
    ∧ ((SchemaGrant "DB" "SCH").Role "ADMIN").Revoke "OWNERSHIP"
      = "REVOKE OWNERSHIP ON SCHEMA \"DB\".\"SCH\" FROM ROLE \"ADMIN\"" := by
  exact ⟨rfl, by decide, by decide, by decide⟩

/-- C6: the executable's Show depends only on the grantee fields,
rendering `SHOW GRANTS OF <GRANTEE-KIND> "<granteeName>"` whatever the
object kind and qualified name; the warehouse/share example matches. -/
theorem executable_show_grants_of (ge : CurrentGrantExecutable) (g t : String) :
    ge.Show = "SHOW GRANTS OF " ++ ge.granteeType ++ " \"" ++ ge.granteeName ++ "\""
    ∧ ({ grantName := g, grantType := t, granteeName := ge.granteeName,
          granteeType := ge.granteeType } : CurrentGrantExecutable).Show = ge.Show
    ∧ ((WarehouseGrant "WH1").Share "PARTNER").Show
      = "SHOW GRANTS OF SHARE \"PARTNER\"" := by
  exact ⟨rfl, rfl, by decide⟩

/-- C7: function and procedure builders append a parenthesized,
comma-space-joined, unquoted argument-type signature to the quoted
three-part name: shown for zero, one, two and three argument types, and
at the spec's `NUMBER`/`VARCHAR` instance. -/
theorem function_procedure_signature (db s f a b c : String) :
    (FunctionGrant db s f []).qualifiedName
      = "\"" ++ db ++ "\".\"" ++ s ++ "\".\"" ++ f ++ "\"()"
    ∧ (FunctionGrant db s f [a]).qualifiedName
      = "\"" ++ db ++ "\".\"" ++ s ++ "\".\"" ++ f ++ "\"(" ++ a ++ ")"
    ∧ (FunctionGrant db s f [a, b]).qualifiedName
      = "\"" ++ db ++ "\".\"" ++ s ++ "\".\"" ++ f ++ "\"(" ++ a ++ ", " ++ b ++ ")"
    ∧ (FunctionGrant db s f [a, b, c]).qualifiedName
      = "\"" ++ db ++ "\".\"" ++ s ++ "\".\"" ++ f ++ "\"(" ++ a ++ ", " ++ b
        ++ ", " ++ c ++ ")"
    ∧ (ProcedureGrant db s f []).qualifiedName
      = "\"" ++ db ++ "\".\"" ++ s ++ "\".\"" ++ f ++ "\"()"
    ∧ (ProcedureGrant db s f [a, b]).qualifiedName
      = "\"" ++ db ++ "\".\"" ++ s ++ "\".\"" ++ f ++ "\"(" ++ a ++ ", " ++ b ++ ")"
    ∧ (FunctionGrant "DB" "S" "F" ["NUMBER", "VARCHAR"]).qualifiedName
      = "\"DB\".\"S\".\"F\"(NUMBER, VARCHAR)"
    ∧ (ProcedureGrant "DB" "S" "F" ["NUMBER", "VARCHAR"]).qualifiedName
      = "\"DB\".\"S\".\"F\"(NUMBER, VARCHAR)" := by
  refine ⟨?_, ?_, ?_, ?_, ?_, ?_, by decide, by decide⟩ <;>
    · apply String.ext
      simp [FunctionGrant, ProcedureGrant, stringsJoin, String.data_append,
        List.append_assoc]

/-- C8: every three-name-part builder quotes each part and joins with
dots; end to end, granting `SELECT` on a table to a role renders the
exact statement, both universally and at the spec's concrete example. -/
theorem three_segment_qualification (db sch obj n : String) :
    (StageGrant db sch obj).qualifiedName
      = "\"" ++ db ++ "\".\"" ++ sch ++ "\".\"" ++ obj ++ "\""
    ∧ (ViewGrant db sch obj).qualifiedName
      = "\"" ++ db ++ "\".\"" ++ sch ++ "\".\"" ++ obj ++ "\""
    ∧ (TableGrant db sch obj).qualifiedName
      = "\"" ++ db ++ "\".\"" ++ sch ++ "\".\"" ++ obj ++ "\""
    ∧ (ExternalTableGrant db sch obj).qualifiedName
      = "\"" ++ db ++ "\".\"" ++ sch ++ "\".\"" ++ obj ++ "\""
    ∧ (FileFormatGrant db sch obj).qualifiedName
      = "\"" ++ db ++ "\".\"" ++ sch ++ "\".\"" ++ obj ++ "\""
    ∧ (SequenceGrant db sch obj).qualifiedName
      = "\"" ++ db ++ "\".\"" ++ sch ++ "\".\"" ++ obj ++ "\""
    ∧ (StreamGrant db sch obj).qualifiedName
      = "\"" ++ db ++ "\".\"" ++ sch ++ "\".\"" ++ obj ++ "\""
    ∧ (MaterializedViewGrant db sch obj).qualifiedName
      = "\"" ++ db ++ "\".\"" ++ sch ++ "\".\"" ++ obj ++ "\""
    ∧ ((TableGrant db sch obj).Role n).Grant "SELECT" false
      = "GRANT SELECT ON TABLE \"" ++ db ++ "\".\"" ++ sch ++ "\".\"" ++ obj
        ++ "\" TO ROLE \"" ++ n ++ "\""
    ∧ ((TableGrant "DB" "SCH" "T").Role "ANALYST").Grant "SELECT" false
      = "GRANT SELECT ON TABLE \"DB\".\"SCH\".\"T\" TO ROLE \"ANALYST\"" := by
  refine ⟨rfl, rfl, rfl, rfl, rfl, rfl, rfl, rfl, ?_, by decide⟩
  apply String.ext
  simp [CurrentGrantExecutable.Grant, CurrentGrantBuilder.Role, TableGrant,
    tableType, roleType, String.data_append, List.append_assoc]

/-- C9: every executable reachable through `Role`/`Share` on either
builder type carries grantee kind `ROLE` or `SHARE` — never `USER` —
and the rendered Show/Revoke statements place that keyword in the
grantee slot. -/
theorem grantee_role_or_share (gb : CurrentGrantBuilder)
    (mgb : CurrentMaterializedViewGrantBuilder) (n p : String) :
    ((gb.Role n).granteeType = roleType ∧ (gb.Share n).granteeType = shareType
      ∧ (mgb.Role n).granteeType = roleType ∧ (mgb.Share n).granteeType = shareType)
    ∧ (roleType ≠ userType ∧ shareType ≠ userType)
    ∧ (gb.Role n).Show = "SHOW GRANTS OF ROLE \"" ++ n ++ "\""
    ∧ (gb.Share n).Show = "SHOW GRANTS OF SHARE \"" ++ n ++ "\""
    ∧ (gb.Role n).Revoke p
      = "REVOKE " ++ p ++ " ON " ++ gb.grantType ++ " " ++ gb.qualifiedName
        ++ " FROM ROLE \"" ++ n ++ "\""
    ∧ (gb.Share n).Revoke p
      = "REVOKE " ++ p ++ " ON " ++ gb.grantType ++ " " ++ gb.qualifiedName
        ++ " FROM SHARE \"" ++ n ++ "\"" := by
  refine ⟨⟨rfl, rfl, rfl, rfl⟩, ⟨by decide, by decide⟩, ?_, ?_, ?_, ?_⟩ <;>
    · apply String.ext
      simp [CurrentGrantExecutable.Show, CurrentGrantExecutable.Revoke,
        CurrentGrantBuilder.Role, CurrentGrantBuilder.Share, roleType, shareType,
        String.data_append, List.append_assoc]

/-- C10: name strings are embedded verbatim between literal
double-quote characters — no escaping — so a name containing a
double-quote yields unbalanced quoting: the qualified name of
`DatabaseGrant "A\"B"` carries three quote characters, an odd count. -/
theorem identifiers_verbatim_no_escaping (s db sch st r p : String) :
    (DatabaseGrant s).qualifiedName = "\"" ++ s ++ "\""
    ∧ (StageGrant db sch st).qualifiedName
      = "\"" ++ db ++ "\".\"" ++ sch ++ "\".\"" ++ st ++ "\""
    ∧ ((DatabaseGrant s).Role r).Revoke p
      = "REVOKE " ++ p ++ " ON DATABASE \"" ++ s ++ "\" FROM ROLE \"" ++ r ++ "\""
    ∧ (DatabaseGrant "A\"B").qualifiedName = "\"A\"B\""
    ∧ List.count (Char.ofNat 34) (DatabaseGrant "A\"B").qualifiedName.data = 3
    ∧ ¬ (2 ∣ List.count (Char.ofNat 34) (DatabaseGrant "A\"B").qualifiedName.data) := by
  refine ⟨rfl, rfl, ?_, by decide, by decide, by decide⟩
  apply String.ext
  simp [CurrentGrantExecutable.Revoke, CurrentGrantBuilder.Role, DatabaseGrant,
    databaseType, roleType, String.data_append, List.append_assoc]

end Snowflake
